import Mathlib

/-!
Shallow embedding of the object-tracking repository (`src/tracker/track.py`,
`src/config/config.py`, `src/tracker_service.py`) and proofs about it.
Python floats are modelled as rationals, numpy 4-vectors as a `Box` record,
torch feature tensors as lists of rationals, Python ints as `ℤ`.
-/

/-- A bounding box or a per-coordinate 4-vector `[x1, y1, x2, y2]`,
as stored in `Track.bbox`, `Track.predicted_bbox` and `Track.velocity`. -/
structure Box where
  x1 : ℚ
  y1 : ℚ
  x2 : ℚ
  y2 : ℚ
deriving DecidableEq

/-- Componentwise addition of numpy 4-vectors, as in `self.bbox + self.velocity`. -/
def Box.add (a b : Box) : Box :=
  ⟨a.x1 + b.x1, a.y1 + b.y1, a.x2 + b.x2, a.y2 + b.y2⟩

/-- Componentwise subtraction of numpy 4-vectors, as in `bbox - self.bbox`. -/
def Box.sub (a b : Box) : Box :=
  ⟨a.x1 - b.x1, a.y1 - b.y1, a.x2 - b.x2, a.y2 - b.y2⟩

/-- The state of `Track` from `src/tracker/track.py`.
The private attribute `_is_detected` is the field `is_detected_flag`. -/
structure Track where
  track_id : String
  bbox : Box
  predicted_bbox : Box
  feature_vector : List ℚ
  age : ℤ
  history : List Box
  velocity : Box
  distance : ℚ
  label : Option String
  persistence : ℤ
  min_persistence : ℤ
  is_candidate : Bool
  is_detected_flag : Bool
deriving DecidableEq

/-- `Track.__init__`: note that `min_persistence` is assigned the literal `3`
and is not a constructor parameter. -/
def Track.init (track_id : String) (bbox : Box) (feature_vector : List ℚ)
    (distance : ℚ) (label : Option String) (is_candidate : Bool) : Track :=
  { track_id := track_id
    bbox := bbox
    predicted_bbox := bbox
    feature_vector := feature_vector
    age := 0
    history := [bbox]
    velocity := ⟨0, 0, 0, 0⟩
    distance := distance
    label := label
    persistence := 0
    min_persistence := 3
    is_candidate := is_candidate
    is_detected_flag := true }

/-- `Track.predict`: `self.bbox + self.velocity`. -/
def Track.predict (t : Track) : Box :=
  Box.add t.bbox t.velocity

/-- `Track.update`: records the distance, sets the velocity to the first
difference `bbox - self.bbox`, overwrites `bbox` and `feature_vector`,
appends the new bbox to `history`, resets `age` to 0, and recomputes
`predicted_bbox` from the updated state. -/
def Track.update (t : Track) (bbox : Box) (feature_vector : List ℚ)
    (distance : ℚ) : Track :=
  let t1 : Track :=
    { t with
      distance := distance
      velocity := Box.sub bbox t.bbox
      bbox := bbox
      history := t.history ++ [bbox]
      feature_vector := feature_vector
      age := 0 }
  { t1 with predicted_bbox := t1.predict }

/-- `Track.increment_persistence`. -/
def Track.increment_persistence (t : Track) : Track :=
  { t with persistence := t.persistence + 1 }

/-- `Track.increment_age`: increments `age` and replaces `bbox` with the
predicted box; `predicted_bbox` itself is not reassigned here. -/
def Track.increment_age (t : Track) : Track :=
  { t with age := t.age + 1, bbox := t.predict }

/-- `Track.iou`: intersection over union of `self.predicted_bbox` and the
given box, with the division guarded by `union_area > 0`. -/
def Track.iou (t : Track) (bbox : Box) : ℚ :=
  let x1_t := t.predicted_bbox.x1
  let y1_t := t.predicted_bbox.y1
  let x2_t := t.predicted_bbox.x2
  let y2_t := t.predicted_bbox.y2
  let x1_o := bbox.x1
  let y1_o := bbox.y1
  let x2_o := bbox.x2
  let y2_o := bbox.y2
  let x1_inter := max x1_t x1_o
  let y1_inter := max y1_t y1_o
  let x2_inter := min x2_t x2_o
  let y2_inter := min y2_t y2_o
  let inter_area := max 0 (x2_inter - x1_inter) * max 0 (y2_inter - y1_inter)
  let track_area := (x2_t - x1_t) * (y2_t - y1_t)
  let other_area := (x2_o - x1_o) * (y2_o - y1_o)
  let union_area := track_area + other_area - inter_area
  if 0 < union_area then inter_area / union_area else 0

/-- Python `int(q)` for a rational: truncation toward zero. -/
def pyInt (q : ℚ) : ℤ :=
  if q < 0 then -Int.floor (-q) else Int.floor q

/-- Python string repetition `s * n` (empty for `n ≤ 0`). -/
def strRepeat (s : String) (n : ℤ) : String :=
  String.join (List.replicate n.toNat s)

/-- `Track.progress_bar`: clamps the progress at `min_persistence`
(the clamp tests `self.persistence`, as in the source) and renders
`"tracking  [ * * . .]"`-style text. -/
def Track.progress_bar (t : Track) (current_progress min_persistence : ℤ) : String :=
  let progress_char := " *"
  let empty_char := " ."
  let current_progress :=
    if min_persistence < t.persistence then min_persistence else current_progress
  let bar :=
    strRepeat progress_char current_progress ++
      strRepeat empty_char (min_persistence - current_progress)
  "tracking" ++ ("  [" ++ (bar ++ "]"))

/-- `Track._get_class_name`: a progress bar while the track is a candidate,
the track id once confirmed. -/
def Track.get_class_name (t : Track) : String :=
  if t.is_candidate then t.progress_bar t.persistence t.min_persistence
  else t.track_id

/-- The optional `crop_region` dict; each key may be absent,
read with `.get(key, 0.0)`. -/
structure CropRegion where
  x1_rel : Option ℚ
  y1_rel : Option ℚ
  x2_rel : Option ℚ
  y2_rel : Option ℚ
deriving DecidableEq

/-- The `viam` `Detection` value returned by `Track.get_detection`. -/
structure Detection where
  x_min : ℚ
  y_min : ℚ
  x_max : ℚ
  y_max : ℚ
  confidence : ℚ
  class_name : String
deriving DecidableEq

/-- `Track.get_detection`: converts `bbox` from cropped coordinates back to
original image coordinates when a crop region is set (offset by the scaled
relative origin, each coordinate clamped above by `width - 1` / `height - 1`),
with `confidence = 1 - self.distance`. -/
def Track.get_detection (t : Track) (crop_region : Option CropRegion)
    (original_image_width original_image_height : ℤ) : Detection :=
  let class_name := t.get_class_name
  match crop_region with
  | none =>
      { x_min := t.bbox.x1
        y_min := t.bbox.y1
        x_max := t.bbox.x2
        y_max := t.bbox.y2
        confidence := 1 - t.distance
        class_name := class_name }
  | some c =>
      let x_offset : ℤ := pyInt ((c.x1_rel.getD 0) * (original_image_width : ℚ))
      let y_offset : ℤ := pyInt ((c.y1_rel.getD 0) * (original_image_height : ℚ))
      let x_min := min ((original_image_width : ℚ) - 1) (t.bbox.x1 + (x_offset : ℚ))
      let y_min := min ((original_image_height : ℚ) - 1) (t.bbox.y1 + (y_offset : ℚ))
      let x_max := min ((original_image_width : ℚ) - 1) (t.bbox.x2 + (x_offset : ℚ))
      let y_max := min ((original_image_height : ℚ) - 1) (t.bbox.y2 + (y_offset : ℚ))
      { x_min := x_min
        y_min := y_min
        x_max := x_max
        y_max := y_max
        confidence := 1 - t.distance
        class_name := class_name }

/-- A Python value handed to `Track.__eq__`: either a `Track` or any
non-`Track` value (abstracted by a tag). -/
inductive PyValue where
  | track (t : Track)
  | nonTrack (tag : String)
deriving DecidableEq

/-- `Track.__eq__`: `False` for non-`Track` arguments, otherwise equality of
`track_id`, `bbox` (via `np.array_equal`) and `feature_vector` only. -/
def Track.track_eq (t : Track) (other : PyValue) : Bool :=
  match other with
  | PyValue.nonTrack _ => false
  | PyValue.track u =>
      decide (t.track_id = u.track_id) && decide (t.bbox = u.bbox) &&
        decide (t.feature_vector = u.feature_vector)

/-- The mutating operations a `Track` undergoes during tracking cycles. -/
inductive TrackOp where
  | update (bbox : Box) (feature_vector : List ℚ) (distance : ℚ)
  | increment_age
  | increment_persistence

/-- Apply one track operation. -/
def applyOp (t : Track) : TrackOp → Track
  | TrackOp.update b fv d => t.update b fv d
  | TrackOp.increment_age => t.increment_age
  | TrackOp.increment_persistence => t.increment_persistence

/-- Apply a sequence of track operations in order. -/
def runOps (t : Track) (ops : List TrackOp) : Track :=
  ops.foldl applyOp t

/-- The `"area"` product `(x2 - x1) * (y2 - y1)` of a box, as computed in
`Track.iou`. -/
def boxArea (b : Box) : ℚ :=
  (b.x2 - b.x1) * (b.y2 - b.y1)

/-- Two boxes are disjoint when their x-extents or their y-extents do not
overlap. -/
def boxesDisjoint (a b : Box) : Prop :=
  min a.x2 b.x2 ≤ max a.x1 b.x1 ∨ min a.y2 b.y2 ≤ max a.y1 b.y1

/-- A configuration-validation failure (`ConfigurationError`). -/
inductive ConfigError where
  | invalidValue (field_name : String)
deriving DecidableEq

/-- Modelled from the spec: `src/config/attribute.py` (the `StringAttribute`
validator) is not in the available source; per the spec's configuration
surface and error taxonomy, an absent field takes the attribute's default and
a present value outside the attribute's allowlist is a `ConfigurationError`. -/
def validateStringAttr (field_name : String) (default_value : Option String)
    (allowlist : Option (List String)) (provided : Option String) :
    Except ConfigError (Option String) :=
  match provided with
  | none => Except.ok default_value
  | some v =>
      match allowlist with
      | none => Except.ok (some v)
      | some l =>
          if v ∈ l then Except.ok (some v)
          else Except.error (ConfigError.invalidValue field_name)

/-- Modelled from the spec: `src/config/attribute.py` (the `IntAttribute`
validator) is not in the available source; per the spec, an absent field takes
the default and a present value outside `[min_value, max_value]` is a
`ConfigurationError`. -/
def validateIntAttr (field_name : String) (min_value max_value : Option ℤ)
    (default_value : Option ℤ) (provided : Option ℤ) :
    Except ConfigError (Option ℤ) :=
  match provided with
  | none => Except.ok default_value
  | some v =>
      if (min_value.all fun m => m ≤ v) && (max_value.all fun m => v ≤ m) then
        Except.ok (some v)
      else Except.error (ConfigError.invalidValue field_name)

/-- `TrackingConfig.min_track_persistence` from `src/config/config.py`:
an `IntAttribute` with `min_value = 0` and `default_value = 4`. -/
def validate_min_track_persistence (provided : Option ℤ) :
    Except ConfigError (Option ℤ) :=
  validateIntAttr ("min_track_persistence") (some 0) none (some 4) provided

/-- `TrackingConfig.feature_distance_metric` from `src/config/config.py`:
a `StringAttribute` with `default_value = "cosine"` and allowlist
`["cosine", "euclidean"]`. -/
def validate_feature_distance_metric (provided : Option String) :
    Except ConfigError (Option String) :=
  validateStringAttr ("feature_distance_metric") (some ("cosine"))
    (some ["cosine", "euclidean"]) provided

/-- An opaque stand-in for a `ViamImage` argument. -/
structure ViamImage where
  data : Unit
deriving DecidableEq

/-- A Python exception kind raised or mentioned by `TrackerService`. -/
inductive PyExc where
  | notImplementedError
  | valueError
deriving DecidableEq

/-- What a reader-facing `TrackerService` method can produce: it either
raises an exception, or returns the exception *class object* as a value,
or returns an ordinary list value. -/
inductive ReaderOutcome where
  | raised (e : PyExc)
  | returnedExcClass (e : PyExc)
  | returnedList
deriving DecidableEq

/-- `TrackerService.get_object_point_clouds`: `raise NotImplementedError`. -/
def TrackerService.get_object_point_clouds (camera_name : String) : ReaderOutcome :=
  ReaderOutcome.raised PyExc.notImplementedError

/-- `TrackerService.get_detections` (image-based): the body is
`return NotImplementedError`, which returns the exception class as a value
instead of raising it. -/
def TrackerService.get_detections (image : ViamImage) : ReaderOutcome :=
  ReaderOutcome.returnedExcClass PyExc.notImplementedError

/-- `TrackerService.get_classifications`: the body is
`return NotImplementedError`, which returns the exception class as a value
instead of raising it. -/
def TrackerService.get_classifications (image : ViamImage) (count : ℤ) :
    ReaderOutcome :=
  ReaderOutcome.returnedExcClass PyExc.notImplementedError

/-- `TrackerService.get_classifications_from_camera`: the body is
`return NotImplementedError`, which returns the exception class as a value
instead of raising it. -/
def TrackerService.get_classifications_from_camera (camera_name : String)
    (count : ℤ) : ReaderOutcome :=
  ReaderOutcome.returnedExcClass PyExc.notImplementedError

/-- Helper: `age` and `persistence` stay non-negative under any sequence of
track operations. -/
lemma runOps_counters_nonneg (ops : List TrackOp) :
    ∀ t : Track, 0 ≤ t.age → 0 ≤ t.persistence →
      0 ≤ (runOps t ops).age ∧ 0 ≤ (runOps t ops).persistence := by
  induction ops with
  | nil => exact fun t h1 h2 => ⟨h1, h2⟩
  | cons op rest ih =>
      intro t h1 h2
      have hstep : runOps t (op :: rest) = runOps (applyOp t op) rest := rfl
      rw [hstep]
      apply ih
      · cases op <;>
          simp [applyOp, Track.update, Track.increment_age,
            Track.increment_persistence] <;> omega
      · cases op <;>
          simp [applyOp, Track.update, Track.increment_age,
            Track.increment_persistence] <;> omega

/-- Helper: `Track.iou` is zero whenever the two boxes are separated along
the x-axis or along the y-axis. -/
lemma iou_eq_zero_of_sep (t : Track) (b : Box)
    (h : boxesDisjoint t.predicted_bbox b) : t.iou b = 0 := by
  unfold boxesDisjoint at h
  simp only [Track.iou]
  rcases h with h | h
  · rw [show max (0 : ℚ)
        (min t.predicted_bbox.x2 b.x2 - max t.predicted_bbox.x1 b.x1) = 0 from
        max_eq_left (by linarith), zero_mul]
    split <;> simp
  · rw [show max (0 : ℚ)
        (min t.predicted_bbox.y2 b.y2 - max t.predicted_bbox.y1 b.y1) = 0 from
        max_eq_left (by linarith), mul_zero]
    split <;> simp

/-- Helper: a box with non-positive area product is separated from every
other box in the sense of `boxesDisjoint`. -/
lemma iou_eq_zero_of_nonpos_area (t : Track) (b : Box)
    (h : boxArea t.predicted_bbox ≤ 0 ∨ boxArea b ≤ 0) : t.iou b = 0 := by
  apply iou_eq_zero_of_sep
  unfold boxArea at h
  unfold boxesDisjoint
  have hx1 : min t.predicted_bbox.x2 b.x2 ≤ t.predicted_bbox.x2 := min_le_left _ _
  have hx2 : min t.predicted_bbox.x2 b.x2 ≤ b.x2 := min_le_right _ _
  have hx3 : t.predicted_bbox.x1 ≤ max t.predicted_bbox.x1 b.x1 := le_max_left _ _
  have hx4 : b.x1 ≤ max t.predicted_bbox.x1 b.x1 := le_max_right _ _
  have hy1 : min t.predicted_bbox.y2 b.y2 ≤ t.predicted_bbox.y2 := min_le_left _ _
  have hy2 : min t.predicted_bbox.y2 b.y2 ≤ b.y2 := min_le_right _ _
  have hy3 : t.predicted_bbox.y1 ≤ max t.predicted_bbox.y1 b.y1 := le_max_left _ _
  have hy4 : b.y1 ≤ max t.predicted_bbox.y1 b.y1 := le_max_right _ _
  rcases h with h | h
  · rcases mul_nonpos_iff.mp h with ⟨_, h2⟩ | ⟨h1, _⟩
    · right; linarith
    · left; linarith
  · rcases mul_nonpos_iff.mp h with ⟨_, h2⟩ | ⟨h1, _⟩
    · right; linarith
    · left; linarith

/-- Helper: `Track.iou` of the predicted box against itself is `1` when that
box has positive extent along both axes. -/
lemma iou_self_eq_one (t : Track)
    (h1 : t.predicted_bbox.x1 < t.predicted_bbox.x2)
    (h2 : t.predicted_bbox.y1 < t.predicted_bbox.y2) :
    t.iou t.predicted_bbox = 1 := by
  simp only [Track.iou]
  rw [max_self, max_self, min_self, min_self,
    max_eq_right (le_of_lt (sub_pos.mpr h1)),
    max_eq_right (le_of_lt (sub_pos.mpr h2))]
  have hA : 0 < (t.predicted_bbox.x2 - t.predicted_bbox.x1) *
      (t.predicted_bbox.y2 - t.predicted_bbox.y1) :=
    mul_pos (sub_pos.mpr h1) (sub_pos.mpr h2)
  rw [if_pos (by linarith)]
  have hU : (t.predicted_bbox.x2 - t.predicted_bbox.x1) *
        (t.predicted_bbox.y2 - t.predicted_bbox.y1) +
      (t.predicted_bbox.x2 - t.predicted_bbox.x1) *
        (t.predicted_bbox.y2 - t.predicted_bbox.y1) -
      (t.predicted_bbox.x2 - t.predicted_bbox.x1) *
        (t.predicted_bbox.y2 - t.predicted_bbox.y1) =
      (t.predicted_bbox.x2 - t.predicted_bbox.x1) *
        (t.predicted_bbox.y2 - t.predicted_bbox.y1) := by ring
  rw [hU]
  exact div_self (ne_of_gt hA)

instance (a b : Box) : Decidable (boxesDisjoint a b) := by
  unfold boxesDisjoint; infer_instance

/-- Helper: `pyInt` is the identity on integers. -/
lemma pyInt_intCast (n : ℤ) : pyInt ((n : ℚ)) = n := by
  unfold pyInt
  split
  · rw [show -((n : ℚ)) = (((-n : ℤ)) : ℚ) by push_cast; ring, Int.floor_intCast]
    ring
  · exact Int.floor_intCast n

/-- Helper: the coordinates `Track.get_detection` reports when a crop region
is present, read off the match branch. -/
lemma get_detection_some_coords (t : Track) (c : CropRegion) (W H : ℤ) :
    (t.get_detection (some c) W H).x_min =
        min ((W : ℚ) - 1) (t.bbox.x1 + (pyInt ((c.x1_rel.getD 0) * (W : ℚ)) : ℚ)) ∧
      (t.get_detection (some c) W H).y_min =
        min ((H : ℚ) - 1) (t.bbox.y1 + (pyInt ((c.y1_rel.getD 0) * (H : ℚ)) : ℚ)) ∧
      (t.get_detection (some c) W H).x_max =
        min ((W : ℚ) - 1) (t.bbox.x2 + (pyInt ((c.x1_rel.getD 0) * (W : ℚ)) : ℚ)) ∧
      (t.get_detection (some c) W H).y_max =
        min ((H : ℚ) - 1) (t.bbox.y2 + (pyInt ((c.y1_rel.getD 0) * (H : ℚ)) : ℚ)) :=
  ⟨rfl, rfl, rfl, rfl⟩

/-- C1 counterexample: create a track at `[0,0,0,0]`, update it to
`[1,1,1,1]` (velocity becomes `[1,1,1,1]`), then one `increment_age`:
`bbox` advances to `[2,2,2,2]` but `predicted_bbox` stays `[2,2,2,2]`,
which differs from `bbox + velocity = [3,3,3,3]`. -/
theorem c1_increment_age_counterexample :
    (Track.increment_age ((Track.init ("t") ⟨0, 0, 0, 0⟩ [] 0 none false).update
        ⟨1, 1, 1, 1⟩ [] 0)).predicted_bbox ≠
      Box.add
        (Track.increment_age ((Track.init ("t") ⟨0, 0, 0, 0⟩ [] 0 none false).update
            ⟨1, 1, 1, 1⟩ [] 0)).bbox
        (Track.increment_age ((Track.init ("t") ⟨0, 0, 0, 0⟩ [] 0 none false).update
            ⟨1, 1, 1, 1⟩ [] 0)).velocity := by
  simp only [Track.init, Track.update, Track.increment_age, Track.predict,
    Box.add, Box.sub]
  norm_num [Box.mk.injEq]

/-- C1 (amended): `predicted_bbox = bbox + velocity` holds after creation and
after every `update`; `increment_age` instead advances `bbox` to
`bbox + velocity` and leaves `predicted_bbox` unchanged, so the invariant can
fail after a miss cycle. -/
theorem c1_predicted_bbox_amended (id : String) (b : Box) (fv : List ℚ) (d : ℚ)
    (lab : Option String) (cand : Bool) (t u : Track) (nb : Box) (nfv : List ℚ)
    (nd : ℚ) :
    (Track.init id b fv d lab cand).predicted_bbox =
        Box.add (Track.init id b fv d lab cand).bbox
          (Track.init id b fv d lab cand).velocity ∧
    (t.update nb nfv nd).predicted_bbox =
        Box.add (t.update nb nfv nd).bbox (t.update nb nfv nd).velocity ∧
    (Track.increment_age u).bbox = Box.add u.bbox u.velocity ∧
    (Track.increment_age u).predicted_bbox = u.predicted_bbox := by
  refine ⟨?_, rfl, rfl, rfl⟩
  cases b
  simp [Track.init, Box.add]

/-- C2: `update` sets the velocity to the first difference with the previous
bbox, overwrites `bbox`, `feature_vector` and `distance`, appends the new
bbox to `history`, and resets `age` to 0; at creation the velocity is the
zero vector. -/
theorem c2_update_semantics (t : Track) (b : Box) (fv : List ℚ) (d : ℚ)
    (id : String) (b0 : Box) (fv0 : List ℚ) (d0 : ℚ) (lab : Option String)
    (cand : Bool) :
    (t.update b fv d).velocity = Box.sub b t.bbox ∧
    (t.update b fv d).bbox = b ∧
    (t.update b fv d).feature_vector = fv ∧
    (t.update b fv d).distance = d ∧
    (t.update b fv d).history = t.history ++ [b] ∧
    (t.update b fv d).age = 0 ∧
    (Track.init id b0 fv0 d0 lab cand).velocity = ⟨0, 0, 0, 0⟩ :=
  ⟨rfl, rfl, rfl, rfl, rfl, rfl, rfl⟩

/-- C3: `iou` of a positive-extent predicted box against itself is 1, `iou`
of disjoint boxes is 0, and `iou` is 0 whenever either box has non-positive
area product, the division being guarded by `union_area > 0`. -/
theorem c3_iou_spec (t1 : Track)
    (h1 : t1.predicted_bbox.x1 < t1.predicted_bbox.x2)
    (h2 : t1.predicted_bbox.y1 < t1.predicted_bbox.y2)
    (t2 : Track) (b2 : Box) (h3 : boxesDisjoint t2.predicted_bbox b2)
    (t3 : Track) (b3 : Box)
    (h4 : boxArea t3.predicted_bbox ≤ 0 ∨ boxArea b3 ≤ 0) :
    t1.iou t1.predicted_bbox = 1 ∧ t2.iou b2 = 0 ∧ t3.iou b3 = 0 :=
  ⟨iou_self_eq_one t1 h1 h2, iou_eq_zero_of_sep t2 b2 h3,
    iou_eq_zero_of_nonpos_area t3 b3 h4⟩

/-- C3 witness: concrete tracks and boxes discharging each hypothesis of
`c3_iou_spec`. -/
theorem c3_iou_spec_witness :
    ((Track.init ("a") ⟨0, 0, 4, 4⟩ [] 0 none false).predicted_bbox.x1 <
        (Track.init ("a") ⟨0, 0, 4, 4⟩ [] 0 none false).predicted_bbox.x2) ∧
    ((Track.init ("a") ⟨0, 0, 4, 4⟩ [] 0 none false).predicted_bbox.y1 <
        (Track.init ("a") ⟨0, 0, 4, 4⟩ [] 0 none false).predicted_bbox.y2) ∧
    boxesDisjoint (Track.init ("b") ⟨0, 0, 1, 1⟩ [] 0 none false).predicted_bbox
      ⟨2, 2, 3, 3⟩ ∧
    (boxArea (Track.init ("c") ⟨0, 0, 0, 5⟩ [] 0 none false).predicted_bbox ≤ 0 ∨
      boxArea (⟨0, 0, 1, 1⟩ : Box) ≤ 0) ∧
    ((Track.init ("a") ⟨0, 0, 4, 4⟩ [] 0 none false).iou
        (Track.init ("a") ⟨0, 0, 4, 4⟩ [] 0 none false).predicted_bbox = 1 ∧
      (Track.init ("b") ⟨0, 0, 1, 1⟩ [] 0 none false).iou ⟨2, 2, 3, 3⟩ = 0 ∧
      (Track.init ("c") ⟨0, 0, 0, 5⟩ [] 0 none false).iou ⟨0, 0, 1, 1⟩ = 0) :=
  ⟨by norm_num [Track.init], by norm_num [Track.init],
    by norm_num [boxesDisjoint, Track.init, min_le_iff, le_max_iff],
    by norm_num [boxArea, Track.init],
    c3_iou_spec _ (by norm_num [Track.init]) (by norm_num [Track.init]) _ _
      (by norm_num [boxesDisjoint, Track.init, min_le_iff, le_max_iff]) _ _
      (by norm_num [boxArea, Track.init])⟩

/-- C4 counterexample: with the default configuration the validated
`min_track_persistence` is 4, yet a freshly constructed `Track` has
`min_persistence = 3`: the threshold is fixed by `Track.__init__`, not
supplied by configuration. -/
theorem c4_min_persistence_counterexample :
    (Track.init ("a") ⟨0, 0, 1, 1⟩ [] 0 none true).min_persistence = 3 ∧
    validate_min_track_persistence none = Except.ok (some 4) ∧
    (3 : ℤ) ≠ 4 :=
  ⟨rfl, rfl, by decide⟩

/-- C4 (amended): `Track.__init__` hard-codes `min_persistence = 3` for every
track regardless of the constructor arguments, while the configuration's
`min_track_persistence` attribute validates to its default 4 when absent. -/
theorem c4_min_persistence_amended (id : String) (b : Box) (fv : List ℚ)
    (d : ℚ) (lab : Option String) (cand : Bool) :
    (Track.init id b fv d lab cand).min_persistence = 3 ∧
    validate_min_track_persistence none = Except.ok (some 4) :=
  ⟨rfl, rfl⟩

/-- C5: starting from any creation, after any sequence of track operations
`age` and `persistence` are non-negative; no single operation decreases
`persistence`, and `increment_age` leaves `persistence` unchanged. -/
theorem c5_counters_invariant (id : String) (b : Box) (fv : List ℚ) (d : ℚ)
    (lab : Option String) (cand : Bool) (ops : List TrackOp) :
    (0 ≤ (runOps (Track.init id b fv d lab cand) ops).age ∧
      0 ≤ (runOps (Track.init id b fv d lab cand) ops).persistence) ∧
    (∀ (t : Track) (op : TrackOp), t.persistence ≤ (applyOp t op).persistence) ∧
    (∀ t : Track, (Track.increment_age t).persistence = t.persistence) := by
  refine ⟨runOps_counters_nonneg ops _ (le_refl 0) (le_refl 0), ?_, fun t => rfl⟩
  intro t op
  cases op <;>
    simp [applyOp, Track.update, Track.increment_age, Track.increment_persistence]

/-- C6: `get_detection` reports `confidence = 1 - distance`, and its class
name is the progress-bar string (starting with "tracking") while the track is
a candidate, the stable track id once confirmed. -/
theorem c6_get_detection_display (t : Track) (crop : Option CropRegion)
    (W H : ℤ) :
    (t.get_detection crop W H).confidence = 1 - t.distance ∧
    (t.get_detection crop W H).class_name =
      (if t.is_candidate then t.progress_bar t.persistence t.min_persistence
        else t.track_id) ∧
    (∃ s : String,
      t.progress_bar t.persistence t.min_persistence = "tracking" ++ s) := by
  refine ⟨?_, ?_, ⟨_, rfl⟩⟩
  · cases crop <;> rfl
  · cases crop <;> rfl

/-- Helper: the concrete offset of the scenario crop region on a width-400
frame. -/
lemma pyInt_quarter_400 : pyInt ((1/4 : ℚ) * ((400 : ℤ) : ℚ)) = 100 := by
  rw [show ((1 : ℚ)/4) * (((400 : ℤ)) : ℚ) = (((100 : ℤ)) : ℚ) by push_cast; norm_num]
  exact pyInt_intCast 100

/-- C7 counterexample: with the crop region of the scenario on a 400×400
frame, a track at local `[350,10,399,20]` is reported with
`x_min = 399` (clamped at `width - 1`), not at `350 + 100 = 450` as the
unclamped offset rule would require. -/
theorem c7_crop_counterexample :
    ((Track.init ("e") ⟨350, 10, 399, 20⟩ [] 0 none false).get_detection
        (some ⟨some (1/4), some (1/4), some (3/4), some (3/4)⟩) 400 400).x_min =
      399 ∧
    (350 : ℚ) + (1/4) * 400 = 450 ∧ (399 : ℚ) ≠ 450 := by
  refine ⟨?_, by norm_num, by norm_num⟩
  rw [(get_detection_some_coords _ _ 400 400).1]
  simp only [Track.init, Option.getD_some, pyInt_quarter_400]
  norm_num [min_def]

/-- C7 (amended): the scenario holds (local `[10,10,20,20]` reports
`[110,110,120,120]`), and in general with a crop region each reported
coordinate is the local coordinate plus `int(x1_rel * width)` (resp.
`int(y1_rel * height)`), clamped above by `width - 1` (resp. `height - 1`). -/
theorem c7_crop_offset_amended (t : Track) (c : CropRegion) (W H : ℤ) :
    (((Track.init ("p") ⟨10, 10, 20, 20⟩ [] 0 none false).get_detection
        (some ⟨some (1/4), some (1/4), some (3/4), some (3/4)⟩) 400 400).x_min =
          110 ∧
      ((Track.init ("p") ⟨10, 10, 20, 20⟩ [] 0 none false).get_detection
        (some ⟨some (1/4), some (1/4), some (3/4), some (3/4)⟩) 400 400).y_min =
          110 ∧
      ((Track.init ("p") ⟨10, 10, 20, 20⟩ [] 0 none false).get_detection
        (some ⟨some (1/4), some (1/4), some (3/4), some (3/4)⟩) 400 400).x_max =
          120 ∧
      ((Track.init ("p") ⟨10, 10, 20, 20⟩ [] 0 none false).get_detection
        (some ⟨some (1/4), some (1/4), some (3/4), some (3/4)⟩) 400 400).y_max =
          120) ∧
    (t.get_detection (some c) W H).x_min =
      min ((W : ℚ) - 1) (t.bbox.x1 + (pyInt ((c.x1_rel.getD 0) * (W : ℚ)) : ℚ)) ∧
    (t.get_detection (some c) W H).y_min =
      min ((H : ℚ) - 1) (t.bbox.y1 + (pyInt ((c.y1_rel.getD 0) * (H : ℚ)) : ℚ)) ∧
    (t.get_detection (some c) W H).x_max =
      min ((W : ℚ) - 1) (t.bbox.x2 + (pyInt ((c.x1_rel.getD 0) * (W : ℚ)) : ℚ)) ∧
    (t.get_detection (some c) W H).y_max =
      min ((H : ℚ) - 1) (t.bbox.y2 + (pyInt ((c.y1_rel.getD 0) * (H : ℚ)) : ℚ)) := by
  refine ⟨⟨?_, ?_, ?_, ?_⟩, rfl, rfl, rfl, rfl⟩
  · rw [(get_detection_some_coords _ _ 400 400).1]
    simp only [Track.init, Option.getD_some, pyInt_quarter_400]
    norm_num [min_def]
  · rw [(get_detection_some_coords _ _ 400 400).2.1]
    simp only [Track.init, Option.getD_some, pyInt_quarter_400]
    norm_num [min_def]
  · rw [(get_detection_some_coords _ _ 400 400).2.2.1]
    simp only [Track.init, Option.getD_some, pyInt_quarter_400]
    norm_num [min_def]
  · rw [(get_detection_some_coords _ _ 400 400).2.2.2]
    simp only [Track.init, Option.getD_some, pyInt_quarter_400]
    norm_num [min_def]

/-- C8 counterexample: configuring `feature_distance_metric = "manhattan"`
fails validation with a `ConfigurationError`, since the source allowlist is
`["cosine", "euclidean"]`. -/
theorem c8_manhattan_counterexample :
    validate_feature_distance_metric (some ("manhattan")) =
      Except.error (ConfigError.invalidValue ("feature_distance_metric")) := by
  rfl

/-- C8 (amended): `cosine` and `euclidean` pass validation (and `cosine` is
the default), but `manhattan` is rejected by the allowlist. -/
theorem c8_metric_allowlist_amended :
    validate_feature_distance_metric (some ("cosine")) = Except.ok (some ("cosine")) ∧
    validate_feature_distance_metric (some ("euclidean")) =
      Except.ok (some ("euclidean")) ∧
    validate_feature_distance_metric none = Except.ok (some ("cosine")) ∧
    validate_feature_distance_metric (some ("manhattan")) =
      Except.error (ConfigError.invalidValue ("feature_distance_metric")) :=
  ⟨rfl, rfl, rfl, rfl⟩

/-- C9: `get_object_point_clouds` raises `NotImplementedError`, but
`get_detections`, `get_classifications` and `get_classifications_from_camera`
instead *return* the `NotImplementedError` class as an ordinary value, which
differs from raising it. -/
theorem c9_reader_not_implemented_eval :
    TrackerService.get_object_point_clouds ("cam") =
      ReaderOutcome.raised PyExc.notImplementedError ∧
    TrackerService.get_detections ⟨()⟩ =
      ReaderOutcome.returnedExcClass PyExc.notImplementedError ∧
    TrackerService.get_classifications ⟨()⟩ 1 =
      ReaderOutcome.returnedExcClass PyExc.notImplementedError ∧
    TrackerService.get_classifications_from_camera ("cam") 1 =
      ReaderOutcome.returnedExcClass PyExc.notImplementedError ∧
    ReaderOutcome.returnedExcClass PyExc.notImplementedError ≠
      ReaderOutcome.raised PyExc.notImplementedError :=
  ⟨rfl, rfl, rfl, rfl, by decide⟩

/-- C10: `Track.__eq__` is `True` exactly when `track_id`, `bbox` and
`feature_vector` agree (all other fields are ignored), and is `False` on any
non-`Track` value. -/
theorem c10_track_eq_spec (t u : Track) (tag : String) :
    (Track.track_eq t (PyValue.track u) = true ↔
      t.track_id = u.track_id ∧ t.bbox = u.bbox ∧
        t.feature_vector = u.feature_vector) ∧
    Track.track_eq t (PyValue.nonTrack tag) = false := by
  constructor
  · simp [Track.track_eq, Bool.and_eq_true, decide_eq_true_eq, and_assoc]
  · rfl
